import Mathlib

/-!
Verification of the point-versus-OBB collision demo (`PointOBB/main.cpp`).

The geometric core of the program is the function `TestCollision`, which
projects a point (translated into the box-centered frame) onto the three
columns of the box's rotation matrix and compares each scalar projection
against the box's scaled half-extents.  Around it sits a small interactive
state machine: two meshes (a wireframe box and a point), a `selectedShape`
pointer toggled by the spacebar, WASD/Ctrl/Shift translation commands, and a
mouse-drag rotation update that replaces the selected rotation `R` by
`yaw * pitch * R`.

All arithmetic is embedded over `ℚ`.  The C++ program computes with 32-bit
floats; the claims under verification are about the algorithm in exact
arithmetic, and every numeric literal appearing in the program (0.05, 0.1,
0.15, 0.02, ...) is an exact rational.  Rotation matrices produced by
`glm::rotate` are parametrized here by the cosine/sine pair of the angle,
so that a drag event carries rationals `(c, s)` standing for
`(cos θ, sin θ)`; the exact-arithmetic constraint `c² + s² = 1` replaces the
trigonometric identity.

glm stores matrices column-major: `m[i]` is column `i`, and `m[i][j]` is the
`j`-th component of column `i`.  A `glm::mat4` built by the program always
has bottom row `(0,0,0,1)`, and the program only ever reads
`vec3(M * vec4(v,1))` and the columns' first three entries, so a 4×4 matrix
is embedded as its 3×3 linear part together with its translation column.
-/

/-- A 3-component vector, mirroring `glm::vec3` (components over `ℚ`). -/
structure Vec3 where
  x : ℚ
  y : ℚ
  z : ℚ
deriving DecidableEq

def Vec3.add (a b : Vec3) : Vec3 := ⟨a.x + b.x, a.y + b.y, a.z + b.z⟩

def Vec3.neg (a : Vec3) : Vec3 := ⟨-a.x, -a.y, -a.z⟩

def Vec3.sub (a b : Vec3) : Vec3 := a.add b.neg

def Vec3.smul (k : ℚ) (a : Vec3) : Vec3 := ⟨k * a.x, k * a.y, k * a.z⟩

/-- The glm dot product on 3-vectors. -/
def Vec3.dot (a b : Vec3) : ℚ := a.x * b.x + a.y * b.y + a.z * b.z

def Vec3.zero : Vec3 := ⟨0, 0, 0⟩

/-- A 3×3 matrix stored as its three columns, matching glm's column-major
layout: `m.c0` is `m[0]`, the first column. -/
structure Mat3 where
  c0 : Vec3
  c1 : Vec3
  c2 : Vec3
deriving DecidableEq

/-- Matrix-vector product: `v.x * c0 + v.y * c1 + v.z * c2`. -/
def Mat3.mulVec (m : Mat3) (v : Vec3) : Vec3 :=
  (Vec3.smul v.x m.c0).add ((Vec3.smul v.y m.c1).add (Vec3.smul v.z m.c2))

/-- Matrix product, columnwise. -/
def Mat3.mul (a b : Mat3) : Mat3 := ⟨a.mulVec b.c0, a.mulVec b.c1, a.mulVec b.c2⟩

def Mat3.id : Mat3 := ⟨⟨1, 0, 0⟩, ⟨0, 1, 0⟩, ⟨0, 0, 1⟩⟩

/-- The part of a `glm::mat4` the program observes: the 3×3 linear block
(columns 0-2, rows 0-2) and the translation column `m[3]` (rows 0-2).
Every matrix the program builds has bottom row `(0,0,0,1)`, and it only
reads `vec3(M * vec4(v,1))`, entries `m[i][j]` with `i,j ≤ 2`, and `m[3][j]`
with `j ≤ 2`, all of which this representation captures exactly. -/
structure Mat4 where
  linear : Mat3
  trans : Vec3
deriving DecidableEq

/-- Product of two bottom-row-`(0,0,0,1)` 4×4 matrices. -/
def Mat4.mul (a b : Mat4) : Mat4 :=
  ⟨a.linear.mul b.linear, (a.linear.mulVec b.trans).add a.trans⟩

def Mat4.id : Mat4 := ⟨Mat3.id, Vec3.zero⟩

/-- Evaluation of `glm::vec3(m * glm::vec4(v, 1.0f))`. -/
def Mat4.applyPoint (m : Mat4) (v : Vec3) : Vec3 :=
  (m.linear.mulVec v).add m.trans

/-- The matrix `glm::translate(glm::mat4(1.0f), v)`: identity linear part, translation `v`.
(Named `translateMat` because Mathlib already owns the name `translate`.) -/
def translateMat (v : Vec3) : Mat4 := ⟨Mat3.id, v⟩

/-- The matrix `glm::scale(glm::mat4(1.0f), v)`: diagonal linear part, zero translation. -/
def scaleMat (v : Vec3) : Mat4 :=
  ⟨⟨⟨v.x, 0, 0⟩, ⟨0, v.y, 0⟩, ⟨0, 0, v.z⟩⟩, Vec3.zero⟩

/-- A pure rotation `glm::mat4`: linear part `m`, zero translation. -/
def rotationMat4 (m : Mat3) : Mat4 := ⟨m, Vec3.zero⟩

/-- The matrix `glm::rotate(glm::mat4(1.0f), θ, vec3(0,1,0))` with `c = cos θ`,
`s = sin θ`: columns `(c,0,-s)`, `(0,1,0)`, `(s,0,c)`. -/
def yawMat (c s : ℚ) : Mat3 := ⟨⟨c, 0, -s⟩, ⟨0, 1, 0⟩, ⟨s, 0, c⟩⟩

/-- The matrix `glm::rotate(glm::mat4(1.0f), θ, vec3(1,0,0))` with `c = cos θ`,
`s = sin θ`: columns `(1,0,0)`, `(0,c,s)`, `(0,-s,c)`. -/
def pitchMat (c s : ℚ) : Mat3 := ⟨⟨1, 0, 0⟩, ⟨0, c, s⟩, ⟨0, -s, c⟩⟩

/-- The `OBB` struct of the source: full width, height and depth of the box
in its own local space (the half-extents are `width/2` etc.). -/
structure OBB where
  width : ℚ
  height : ℚ
  depth : ℚ
deriving DecidableEq

/-- The function `TestCollision` from `main.cpp` (lines 305-334), line by line:
translate the point into the box-centered frame, build the symmetric
local min/max corners from the half-extents, map both through the scale
matrix, then test the scalar projection of the local point onto each
column of the rotation matrix against the per-axis bounds, X first, then
Y, then Z, each comparison inclusive on both ends. -/
def TestCollision (boxCollider : OBB) (boxTranslation boxRotation boxScale : Mat4)
    (point : Vec3) : Bool :=
  let p := point.add (Vec3.neg boxTranslation.trans)
  let vmin : Vec3 :=
    ⟨-boxCollider.width / 2, -boxCollider.height / 2, -boxCollider.depth / 2⟩
  let vmax : Vec3 :=
    ⟨boxCollider.width / 2, boxCollider.height / 2, boxCollider.depth / 2⟩
  let vmin := boxScale.applyPoint vmin
  let vmax := boxScale.applyPoint vmax
  let sProjX := Vec3.dot boxRotation.linear.c0 p
  if vmin.x ≤ sProjX ∧ sProjX ≤ vmax.x then
    let sProjY := Vec3.dot boxRotation.linear.c1 p
    if vmin.y ≤ sProjY ∧ sProjY ≤ vmax.y then
      let sProjZ := Vec3.dot boxRotation.linear.c2 p
      if vmin.z ≤ sProjZ ∧ sProjZ ≤ vmax.z then
        true
      else false
    else false
  else false

/-- The point translated into the box-centered frame: the first statement of
`TestCollision` (`point += vec3(-t[3][0], -t[3][1], -t[3][2])`). -/
def localPoint (boxTranslation : Mat4) (point : Vec3) : Vec3 :=
  point.add (Vec3.neg boxTranslation.trans)

/-- The scaled minimum corner computed inside `TestCollision`:
`vec3(boxScale * vec4(-w/2, -h/2, -d/2, 1))`. -/
def obbMin (bc : OBB) (boxScale : Mat4) : Vec3 :=
  boxScale.applyPoint ⟨-bc.width / 2, -bc.height / 2, -bc.depth / 2⟩

/-- The scaled maximum corner computed inside `TestCollision`:
`vec3(boxScale * vec4(w/2, h/2, d/2, 1))`. -/
def obbMax (bc : OBB) (boxScale : Mat4) : Vec3 :=
  boxScale.applyPoint ⟨bc.width / 2, bc.height / 2, bc.depth / 2⟩

/-! ## The interactive state machine

`main.cpp` keeps two meshes (`box`, `point`), a `selectedShape` pointer, an
`isMousePressed` flag, and a hue matrix whose `[0][0]` entry is the collision
highlight.  Input callbacks and the per-tick `update()` mutate this state.
The mouse-drag rotation amounts in `update()` are `deltaMouse *
rotationSpeed` radians; an update event here carries the cosine/sine pairs
`(cy, sy)` (yaw, about world Y) and `(cx, sx)` (pitch, about world X) of
those angles directly, abstracting only the evaluation of cos/sin. -/

/-- The constant `float movementSpeed = 0.02f`. -/
def movementSpeed : ℚ := 1 / 50

/-- Which mesh `selectedShape` points at. -/
inductive Selection where
  | box
  | point
deriving DecidableEq

/-- The spacebar handler `selectedShape = selectedShape == box ? point : box`. -/
def toggleSel : Selection → Selection
  | Selection.box => Selection.point
  | Selection.point => Selection.box

/-- The transform state of one `Mesh` (its GPU fields are irrelevant here). -/
structure MeshState where
  translation : Mat4
  rotation : Mat4
  scale : Mat4
deriving DecidableEq

/-- The mutable program state touched by the callbacks and `update()`. -/
structure ProgState where
  box : MeshState
  point : MeshState
  selected : Selection
  isMousePressed : Bool
  hueRed : ℚ
deriving DecidableEq

def ProgState.getSelected (s : ProgState) : MeshState :=
  match s.selected with
  | Selection.box => s.box
  | Selection.point => s.point

def ProgState.setSelected (s : ProgState) (m : MeshState) : ProgState :=
  match s.selected with
  | Selection.box => { s with box := m }
  | Selection.point => { s with point := m }

/-- The keys `key_callback` reacts to; every other key is `other`. -/
inductive Key where
  | space
  | w
  | a
  | s
  | d
  | leftControl
  | leftShift
  | other
deriving DecidableEq

/-- The per-key movement direction of `key_callback` (`glm::translate`
argument), or `none` for keys that do not move the selected shape. -/
def moveVec (k : Key) : Option Vec3 :=
  match k with
  | Key.w => some ⟨0, movementSpeed, 0⟩
  | Key.a => some ⟨-movementSpeed, 0, 0⟩
  | Key.s => some ⟨0, -movementSpeed, 0⟩
  | Key.d => some ⟨movementSpeed, 0, 0⟩
  | Key.leftControl => some ⟨0, 0, movementSpeed⟩
  | Key.leftShift => some ⟨0, 0, -movementSpeed⟩
  | _ => none

/-- The external events the program reacts to.  `keyDown` is `key_callback`
with action `GLFW_PRESS` or `GLFW_REPEAT`; `keyUp` is `GLFW_RELEASE` (a
no-op); `mouseButton b` is `mouse_callback`, where `b` is
`button == GLFW_MOUSE_BUTTON_LEFT && action == GLFW_PRESS`; `updateTick`
is one call to `update()`, carrying the cosine/sine pairs of the yaw and
pitch drag angles for this tick. -/
inductive Event where
  | keyDown (k : Key)
  | keyUp (k : Key)
  | mouseButton (leftPressed : Bool)
  | updateTick (cy sy cx sx : ℚ)
deriving DecidableEq

/-- The handler `key_callback` with action `GLFW_PRESS`/`GLFW_REPEAT`: spacebar toggles
the selection, the six movement keys left-compose a world-space translation
onto the selected shape's translation matrix. -/
def keyDownStep (k : Key) (s : ProgState) : ProgState :=
  let s := if k = Key.space then { s with selected := toggleSel s.selected } else s
  match moveVec k with
  | some v =>
      s.setSelected
        { s.getSelected with
          translation := Mat4.mul (translateMat v) (s.getSelected).translation }
  | none => s

/-- The collider built at startup from the box mesh's vertex coordinates:
`OBB(boxVerts[1].x - boxVerts[0].x, boxVerts[9].y - boxVerts[8].y,
boxVerts[3].z - boxVerts[2].z) = OBB(2, 2, 2)`. -/
def boxColliderInit : OBB := ⟨2, 2, 2⟩

/-- One call to `update()`: if the mouse is pressed, left-multiply
`yaw * pitch` onto the selected shape's rotation; then recompute the
collision flag from the box transform and the point's translation column. -/
def updateTickStep (cy sy cx sx : ℚ) (s : ProgState) : ProgState :=
  let s :=
    if s.isMousePressed then
      s.setSelected
        { s.getSelected with
          rotation :=
            Mat4.mul (rotationMat4 (yawMat cy sy))
              (Mat4.mul (rotationMat4 (pitchMat cx sx)) (s.getSelected).rotation) }
    else s
  { s with
    hueRed :=
      if TestCollision boxColliderInit s.box.translation s.box.rotation s.box.scale
          s.point.translation.trans then 1 else 0 }

/-- The whole event step function. -/
def step (e : Event) (s : ProgState) : ProgState :=
  match e with
  | Event.keyDown k => keyDownStep k s
  | Event.keyUp _ => s
  | Event.mouseButton b => { s with isMousePressed := b }
  | Event.updateTick cy sy cx sx => updateTickStep cy sy cx sx s

/-- The state after `main`'s initialization (lines 503-523): box translated
to `(0.15, 0, 0)` and scaled by `0.1`, point translated to `(-0.15, 0, 0)`,
`selectedShape = box`, mouse not pressed, hue matrix the identity. -/
def initState : ProgState :=
  { box :=
      { translation := translateMat ⟨3 / 20, 0, 0⟩
        rotation := Mat4.id
        scale := scaleMat ⟨1 / 10, 1 / 10, 1 / 10⟩ }
    point :=
      { translation := translateMat ⟨-(3 / 20), 0, 0⟩
        rotation := Mat4.id
        scale := Mat4.id }
    selected := Selection.box
    isMousePressed := false
    hueRed := 1 }

/-- Run a sequence of events from the initial state. -/
def run (es : List Event) : ProgState :=
  es.foldl (fun s e => step e s) initState

/-- Columns are unit-length and mutually orthogonal. -/
def orthonormal (m : Mat3) : Prop :=
  Vec3.dot m.c0 m.c0 = 1 ∧ Vec3.dot m.c1 m.c1 = 1 ∧ Vec3.dot m.c2 m.c2 = 1 ∧
    Vec3.dot m.c0 m.c1 = 0 ∧ Vec3.dot m.c0 m.c2 = 0 ∧ Vec3.dot m.c1 m.c2 = 0

/-- For an `updateTick` event, the carried cosine/sine pairs actually are
the cosine and sine of some angle (`c² + s² = 1`); other events carry no
numeric data. -/
def Event.unitParams : Event → Prop
  | Event.updateTick cy sy cx sx => cy * cy + sy * sy = 1 ∧ cx * cx + sx * sx = 1
  | _ => True

example : TestCollision ⟨2, 2, 2⟩ Mat4.id Mat4.id Mat4.id ⟨0, 0, 0⟩ = true := by
  norm_num [TestCollision, Mat4.id, Mat3.id, Mat4.applyPoint, Mat3.mulVec, Vec3.add,
    Vec3.neg, Vec3.smul, Vec3.dot, Vec3.zero]

example : TestCollision ⟨2, 2, 2⟩ Mat4.id Mat4.id Mat4.id ⟨1, 1, 3 / 2⟩ = false := by
  norm_num [TestCollision, Mat4.id, Mat3.id, Mat4.applyPoint, Mat3.mulVec, Vec3.add,
    Vec3.neg, Vec3.smul, Vec3.dot, Vec3.zero]

/-! ## General lemmas about the embedded linear algebra -/

lemma Vec3.ext3 (a b : Vec3) (hx : a.x = b.x) (hy : a.y = b.y) (hz : a.z = b.z) :
    a = b := by
  cases a; cases b; simp_all

lemma Vec3.dot_comm (a b : Vec3) : Vec3.dot a b = Vec3.dot b a := by
  simp only [Vec3.dot]; ring

lemma Vec3.dot_smul_right (a : Vec3) (c : ℚ) (b : Vec3) :
    Vec3.dot a (Vec3.smul c b) = c * Vec3.dot a b := by
  simp only [Vec3.dot, Vec3.smul]; ring

lemma Mat3.mulVec_add (m : Mat3) (a b : Vec3) :
    m.mulVec (a.add b) = (m.mulVec a).add (m.mulVec b) := by
  apply Vec3.ext3 <;> simp [Mat3.mulVec, Vec3.add, Vec3.smul] <;> ring

lemma Mat3.mulVec_neg (m : Mat3) (a : Vec3) :
    m.mulVec (Vec3.neg a) = Vec3.neg (m.mulVec a) := by
  apply Vec3.ext3 <;> simp [Mat3.mulVec, Vec3.add, Vec3.neg, Vec3.smul] <;> ring

/-- Multiplication by a column-orthonormal matrix preserves dot products. -/
lemma dot_mulVec_orthonormal {m : Mat3} (hm : orthonormal m) (a b : Vec3) :
    Vec3.dot (m.mulVec a) (m.mulVec b) = Vec3.dot a b := by
  obtain ⟨h00, h11, h22, h01, h02, h12⟩ := hm
  simp only [Vec3.dot] at h00 h11 h22 h01 h02 h12
  simp only [Mat3.mulVec, Vec3.dot, Vec3.add, Vec3.smul]
  linear_combination (a.x * b.x) * h00 + (a.y * b.y) * h11 + (a.z * b.z) * h22 +
    (a.x * b.y + a.y * b.x) * h01 + (a.x * b.z + a.z * b.x) * h02 +
    (a.y * b.z + a.z * b.y) * h12

lemma orthonormal_mul {a b : Mat3} (ha : orthonormal a) (hb : orthonormal b) :
    orthonormal (a.mul b) := by
  obtain ⟨hb00, hb11, hb22, hb01, hb02, hb12⟩ := hb
  refine ⟨?_, ?_, ?_, ?_, ?_, ?_⟩ <;>
    simp only [Mat3.mul, dot_mulVec_orthonormal ha] <;> assumption

lemma orthonormal_id : orthonormal Mat3.id := by
  refine ⟨?_, ?_, ?_, ?_, ?_, ?_⟩ <;> norm_num [Mat3.id, Vec3.dot]

lemma orthonormal_yawMat {c s : ℚ} (h : c * c + s * s = 1) :
    orthonormal (yawMat c s) := by
  refine ⟨?_, ?_, ?_, ?_, ?_, ?_⟩ <;> simp only [yawMat, Vec3.dot] <;> ring_nf <;>
    linarith

lemma orthonormal_pitchMat {c s : ℚ} (h : c * c + s * s = 1) :
    orthonormal (pitchMat c s) := by
  refine ⟨?_, ?_, ?_, ?_, ?_, ?_⟩ <;> simp only [pitchMat, Vec3.dot] <;> ring_nf <;>
    linarith

/-! ## Unfolding `TestCollision` -/

/-- The function `TestCollision` returns `true` exactly when all six inclusive per-axis
bound comparisons hold (the three scalar projections against the scaled
min/max corners). -/
lemma testCollision_eq_true_iff (bc : OBB) (T R S : Mat4) (p : Vec3) :
    TestCollision bc T R S p = true ↔
      ((obbMin bc S).x ≤ Vec3.dot R.linear.c0 (localPoint T p) ∧
          Vec3.dot R.linear.c0 (localPoint T p) ≤ (obbMax bc S).x) ∧
        ((obbMin bc S).y ≤ Vec3.dot R.linear.c1 (localPoint T p) ∧
            Vec3.dot R.linear.c1 (localPoint T p) ≤ (obbMax bc S).y) ∧
          ((obbMin bc S).z ≤ Vec3.dot R.linear.c2 (localPoint T p) ∧
              Vec3.dot R.linear.c2 (localPoint T p) ≤ (obbMax bc S).z) := by
  simp only [TestCollision, localPoint, obbMin, obbMax]
  split_ifs with h1 h2 h3 <;> simp_all

lemma testCollision_eq_false_iff (bc : OBB) (T R S : Mat4) (p : Vec3) :
    TestCollision bc T R S p = false ↔
      ¬ (((obbMin bc S).x ≤ Vec3.dot R.linear.c0 (localPoint T p) ∧
            Vec3.dot R.linear.c0 (localPoint T p) ≤ (obbMax bc S).x) ∧
          ((obbMin bc S).y ≤ Vec3.dot R.linear.c1 (localPoint T p) ∧
              Vec3.dot R.linear.c1 (localPoint T p) ≤ (obbMax bc S).y) ∧
            ((obbMin bc S).z ≤ Vec3.dot R.linear.c2 (localPoint T p) ∧
                Vec3.dot R.linear.c2 (localPoint T p) ≤ (obbMax bc S).z)) := by
  rw [← testCollision_eq_true_iff]
  cases h : TestCollision bc T R S p <;> simp [h]

/-- The scaled minimum corner for a diagonal scale matrix. -/
lemma obbMin_scaleMat (bc : OBB) (sv : Vec3) :
    obbMin bc (scaleMat sv) =
      ⟨-bc.width / 2 * sv.x, -bc.height / 2 * sv.y, -bc.depth / 2 * sv.z⟩ := by
  apply Vec3.ext3 <;>
    simp [obbMin, scaleMat, Mat4.applyPoint, Mat3.mulVec, Vec3.add, Vec3.smul,
      Vec3.zero]

/-- The scaled maximum corner for a diagonal scale matrix. -/
lemma obbMax_scaleMat (bc : OBB) (sv : Vec3) :
    obbMax bc (scaleMat sv) =
      ⟨bc.width / 2 * sv.x, bc.height / 2 * sv.y, bc.depth / 2 * sv.z⟩ := by
  apply Vec3.ext3 <;>
    simp [obbMax, scaleMat, Mat4.applyPoint, Mat3.mulVec, Vec3.add, Vec3.smul,
      Vec3.zero]

lemma localPoint_translateMat (t : Vec3) (p : Vec3) :
    localPoint (translateMat t) p = p.sub t := rfl

lemma localPoint_translateMat_add (t v : Vec3) :
    localPoint (translateMat t) (t.add v) = v := by
  apply Vec3.ext3 <;>
    simp [localPoint, translateMat, Vec3.add, Vec3.neg]

/-! ## State-machine helper lemmas -/

lemma setSelected_selected (s : ProgState) (m : MeshState) :
    (s.setSelected m).selected = s.selected := by
  cases h : s.selected <;> simp [ProgState.setSelected, h]

lemma getSelected_setSelected (s : ProgState) (m : MeshState) :
    (s.setSelected m).getSelected = m := by
  cases h : s.selected <;> simp [ProgState.setSelected, ProgState.getSelected, h]

/-! ## Claim theorems -/

/-- C1: `TestCollision` with box translation `t`, orthonormal rotation `R`,
diagonal scale `S = diag(sx, sy, sz)` and positive half-extents returns
`true` iff, for each axis `i ∈ {X, Y, Z}`, the scalar projection
`dot(R_i, p - t)` onto the `i`-th column of `R` lies within
`[S_i * (-half_extent_i), S_i * (+half_extent_i)]`. -/
theorem testCollision_true_iff_projections_in_scaled_bounds
    (bc : OBB) (t : Vec3) (R : Mat3) (sx sy sz : ℚ) (p : Vec3)
    (hw : 0 < bc.width) (hh : 0 < bc.height) (hd : 0 < bc.depth)
    (hR : orthonormal R) :
    TestCollision bc (translateMat t) (rotationMat4 R) (scaleMat ⟨sx, sy, sz⟩) p =
        true ↔
      (sx * (-(bc.width / 2)) ≤ Vec3.dot R.c0 (p.sub t) ∧
          Vec3.dot R.c0 (p.sub t) ≤ sx * (bc.width / 2)) ∧
        (sy * (-(bc.height / 2)) ≤ Vec3.dot R.c1 (p.sub t) ∧
            Vec3.dot R.c1 (p.sub t) ≤ sy * (bc.height / 2)) ∧
          (sz * (-(bc.depth / 2)) ≤ Vec3.dot R.c2 (p.sub t) ∧
              Vec3.dot R.c2 (p.sub t) ≤ sz * (bc.depth / 2)) := by
  rw [testCollision_eq_true_iff, obbMin_scaleMat, obbMax_scaleMat,
    localPoint_translateMat]
  simp only [rotationMat4]
  constructor <;> rintro ⟨⟨h1, h2⟩, ⟨h3, h4⟩, h5, h6⟩ <;>
    exact ⟨⟨by linarith, by linarith⟩, ⟨by linarith, by linarith⟩,
      by linarith, by linarith⟩

/-- Witness for C1 at the unit-cube OBB, identity frame, point at the origin. -/
theorem testCollision_true_iff_projections_in_scaled_bounds_witness :
    TestCollision ⟨2, 2, 2⟩ (translateMat Vec3.zero) (rotationMat4 Mat3.id)
      (scaleMat ⟨1, 1, 1⟩) Vec3.zero = true :=
  (testCollision_true_iff_projections_in_scaled_bounds ⟨2, 2, 2⟩ Vec3.zero Mat3.id
        1 1 1 Vec3.zero (by norm_num) (by norm_num) (by norm_num)
        orthonormal_id).mpr
    (by norm_num [Vec3.dot, Vec3.sub, Vec3.add, Vec3.neg, Vec3.zero, Mat3.id])

/-- C2: whenever the X-axis projection lies outside `[min.x, max.x]`,
`TestCollision` returns `false`, whatever the Y and Z projections are. -/
theorem testCollision_false_of_x_projection_outside
    (bc : OBB) (T R S : Mat4) (p : Vec3)
    (hx : ¬ ((obbMin bc S).x ≤ Vec3.dot R.linear.c0 (localPoint T p) ∧
        Vec3.dot R.linear.c0 (localPoint T p) ≤ (obbMax bc S).x)) :
    TestCollision bc T R S p = false := by
  rw [testCollision_eq_false_iff]
  intro h
  exact hx h.1

/-- Witness for C2: point at `(5,0,0)` against the identity-framed unit cube;
Y and Z projections are `0`, well inside their bounds, yet the result is
`false` because X fails. -/
theorem testCollision_false_of_x_projection_outside_witness :
    TestCollision ⟨2, 2, 2⟩ Mat4.id Mat4.id Mat4.id ⟨5, 0, 0⟩ = false :=
  testCollision_false_of_x_projection_outside _ _ _ _ _
    (by norm_num [obbMin, obbMax, localPoint, Mat4.id, Mat4.applyPoint,
      Mat3.mulVec, Mat3.id, Vec3.dot, Vec3.add, Vec3.neg, Vec3.smul, Vec3.zero])

/-- C3: for an identity-transformed OBB centered at the origin with positive
half-extents, the bound comparisons are inclusive: the point at exactly
`(w/2, 0, 0)` collides, while `(w/2 + ε, 0, 0)` does not, for every `ε > 0`. -/
theorem testCollision_inclusive_boundary (bc : OBB) (ε : ℚ)
    (hw : 0 < bc.width) (hh : 0 < bc.height) (hd : 0 < bc.depth) (hε : 0 < ε) :
    TestCollision bc Mat4.id Mat4.id Mat4.id ⟨bc.width / 2, 0, 0⟩ = true ∧
      TestCollision bc Mat4.id Mat4.id Mat4.id ⟨bc.width / 2 + ε, 0, 0⟩ = false := by
  constructor
  · rw [testCollision_eq_true_iff]
    simp only [obbMin, obbMax, localPoint, Mat4.id, Mat4.applyPoint, Mat3.mulVec,
      Mat3.id, Vec3.dot, Vec3.add, Vec3.neg, Vec3.smul, Vec3.zero]
    refine ⟨⟨?_, ?_⟩, ⟨?_, ?_⟩, ⟨?_, ?_⟩⟩ <;> ring_nf <;> linarith
  · rw [testCollision_eq_false_iff]
    simp only [obbMin, obbMax, localPoint, Mat4.id, Mat4.applyPoint, Mat3.mulVec,
      Mat3.id, Vec3.dot, Vec3.add, Vec3.neg, Vec3.smul, Vec3.zero]
    rintro ⟨⟨h1, h2⟩, -⟩
    ring_nf at h2
    linarith

/-- Witness for C3 at the unit cube and `ε = 1`. -/
theorem testCollision_inclusive_boundary_witness :
    TestCollision ⟨2, 2, 2⟩ Mat4.id Mat4.id Mat4.id ⟨2 / 2, 0, 0⟩ = true ∧
      TestCollision ⟨2, 2, 2⟩ Mat4.id Mat4.id Mat4.id ⟨2 / 2 + 1, 0, 0⟩ = false :=
  testCollision_inclusive_boundary ⟨2, 2, 2⟩ 1 (by norm_num) (by norm_num)
    (by norm_num) (by norm_num)

/-- C4: translating the box and the point by the same vector `v` leaves the
result of `TestCollision` unchanged. -/
theorem testCollision_translation_invariant (bc : OBB) (t v : Vec3) (R S : Mat4)
    (p : Vec3) :
    TestCollision bc (translateMat (t.add v)) R S (p.add v) =
      TestCollision bc (translateMat t) R S p := by
  have h : (p.add v).add (Vec3.neg (t.add v)) = p.add (Vec3.neg t) := by
    apply Vec3.ext3 <;> simp [Vec3.add, Vec3.neg] <;> ring
  simp only [TestCollision, translateMat, h]

/-- C5: rotating the box frame by an orthonormal `Q` (rotation `Q*R`,
translation `Q*t`) while re-expressing the point as `Q*p` leaves the result
of `TestCollision` unchanged. -/
theorem testCollision_rotation_invariant (bc : OBB) (Q R : Mat3) (t : Vec3)
    (S : Mat4) (p : Vec3) (hQ : orthonormal Q) :
    TestCollision bc (translateMat (Q.mulVec t)) (rotationMat4 (Q.mul R)) S
        (Q.mulVec p) =
      TestCollision bc (translateMat t) (rotationMat4 R) S p := by
  have hlocal : (Q.mulVec p).add (Vec3.neg (Q.mulVec t)) =
      Q.mulVec (p.add (Vec3.neg t)) := by
    rw [Mat3.mulVec_add, Mat3.mulVec_neg]
  have h0 := dot_mulVec_orthonormal hQ R.c0 (p.add (Vec3.neg t))
  have h1 := dot_mulVec_orthonormal hQ R.c1 (p.add (Vec3.neg t))
  have h2 := dot_mulVec_orthonormal hQ R.c2 (p.add (Vec3.neg t))
  simp only [TestCollision, translateMat, rotationMat4, Mat3.mul, hlocal, h0, h1, h2]

/-- Witness for C5 with the 3-4-5 rotation about Z as `Q`. -/
theorem testCollision_rotation_invariant_witness :
    TestCollision ⟨2, 2, 2⟩
        (translateMat (Mat3.mulVec ⟨⟨3/5, 4/5, 0⟩, ⟨-(4/5), 3/5, 0⟩, ⟨0, 0, 1⟩⟩ ⟨1, 0, 0⟩))
        (rotationMat4 (Mat3.mul ⟨⟨3/5, 4/5, 0⟩, ⟨-(4/5), 3/5, 0⟩, ⟨0, 0, 1⟩⟩ Mat3.id))
        Mat4.id
        (Mat3.mulVec ⟨⟨3/5, 4/5, 0⟩, ⟨-(4/5), 3/5, 0⟩, ⟨0, 0, 1⟩⟩ ⟨1, 1, 0⟩) =
      TestCollision ⟨2, 2, 2⟩ (translateMat ⟨1, 0, 0⟩) (rotationMat4 Mat3.id)
        Mat4.id ⟨1, 1, 0⟩ :=
  testCollision_rotation_invariant ⟨2, 2, 2⟩ ⟨⟨3/5, 4/5, 0⟩, ⟨-(4/5), 3/5, 0⟩, ⟨0, 0, 1⟩⟩
    Mat3.id ⟨1, 0, 0⟩ Mat4.id ⟨1, 1, 0⟩
    (by refine ⟨?_, ?_, ?_, ?_, ?_, ?_⟩ <;> norm_num [Vec3.dot])

/-- C10: a negative diagonal scale entry paired with a positive half-extent
makes that axis's scaled interval empty (`min > max`), so `TestCollision`
returns `false` for every translation, rotation and point. -/
theorem testCollision_false_of_negative_scale (bc : OBB) (sx sy sz : ℚ)
    (h : sx < 0 ∧ 0 < bc.width ∨ sy < 0 ∧ 0 < bc.height ∨ sz < 0 ∧ 0 < bc.depth) :
    ∀ (T R : Mat4) (p : Vec3),
      TestCollision bc T R (scaleMat ⟨sx, sy, sz⟩) p = false := by
  intro T R p
  rw [testCollision_eq_false_iff]
  rintro ⟨⟨h1, h2⟩, ⟨h3, h4⟩, h5, h6⟩
  rw [obbMin_scaleMat] at h1 h3 h5
  rw [obbMax_scaleMat] at h2 h4 h6
  simp only at h1 h2 h3 h4 h5 h6
  rcases h with ⟨hs, hw⟩ | ⟨hs, hw⟩ | ⟨hs, hw⟩
  · nlinarith [mul_pos hw (neg_pos.mpr hs)]
  · nlinarith [mul_pos hw (neg_pos.mpr hs)]
  · nlinarith [mul_pos hw (neg_pos.mpr hs)]

/-- Witness for C10: scale `diag(-1, 1, 1)` on the unit cube rejects even the
box center. -/
theorem testCollision_false_of_negative_scale_witness :
    TestCollision ⟨2, 2, 2⟩ Mat4.id Mat4.id (scaleMat ⟨-1, 1, 1⟩) ⟨0, 0, 0⟩ = false :=
  testCollision_false_of_negative_scale ⟨2, 2, 2⟩ (-1) 1 1
    (Or.inl ⟨by norm_num, by norm_num⟩) Mat4.id Mat4.id ⟨0, 0, 0⟩

/-! ## Per-axis probe points for the scale-growth claim -/

/-- Value of `TestCollision` at a point offset from the box center by `c`
times the box's local X axis: the projections are `(c, 0, 0)`. -/
lemma testCollision_axisX_point (bc : OBB) (t : Vec3) (R : Mat3) (sx sy sz c : ℚ)
    (hR : orthonormal R) :
    TestCollision bc (translateMat t) (rotationMat4 R) (scaleMat ⟨sx, sy, sz⟩)
        (t.add (Vec3.smul c R.c0)) = true ↔
      (-bc.width / 2 * sx ≤ c ∧ c ≤ bc.width / 2 * sx) ∧
        (-bc.height / 2 * sy ≤ 0 ∧ 0 ≤ bc.height / 2 * sy) ∧
          (-bc.depth / 2 * sz ≤ 0 ∧ 0 ≤ bc.depth / 2 * sz) := by
  obtain ⟨h00, h11, h22, h01, h02, h12⟩ := hR
  rw [testCollision_eq_true_iff, obbMin_scaleMat, obbMax_scaleMat,
    localPoint_translateMat_add]
  simp only [rotationMat4, Vec3.dot_smul_right, Vec3.dot_comm R.c1 R.c0,
    Vec3.dot_comm R.c2 R.c0, h00, h01, h02, mul_one, mul_zero]

/-- Value of `TestCollision` at a point offset from the box center by `c`
times the box's local Y axis: the projections are `(0, c, 0)`. -/
lemma testCollision_axisY_point (bc : OBB) (t : Vec3) (R : Mat3) (sx sy sz c : ℚ)
    (hR : orthonormal R) :
    TestCollision bc (translateMat t) (rotationMat4 R) (scaleMat ⟨sx, sy, sz⟩)
        (t.add (Vec3.smul c R.c1)) = true ↔
      (-bc.width / 2 * sx ≤ 0 ∧ 0 ≤ bc.width / 2 * sx) ∧
        (-bc.height / 2 * sy ≤ c ∧ c ≤ bc.height / 2 * sy) ∧
          (-bc.depth / 2 * sz ≤ 0 ∧ 0 ≤ bc.depth / 2 * sz) := by
  obtain ⟨h00, h11, h22, h01, h02, h12⟩ := hR
  rw [testCollision_eq_true_iff, obbMin_scaleMat, obbMax_scaleMat,
    localPoint_translateMat_add]
  simp only [rotationMat4, Vec3.dot_smul_right, Vec3.dot_comm R.c2 R.c1,
    h11, h01, h12, mul_one, mul_zero]

/-- Value of `TestCollision` at a point offset from the box center by `c`
times the box's local Z axis: the projections are `(0, 0, c)`. -/
lemma testCollision_axisZ_point (bc : OBB) (t : Vec3) (R : Mat3) (sx sy sz c : ℚ)
    (hR : orthonormal R) :
    TestCollision bc (translateMat t) (rotationMat4 R) (scaleMat ⟨sx, sy, sz⟩)
        (t.add (Vec3.smul c R.c2)) = true ↔
      (-bc.width / 2 * sx ≤ 0 ∧ 0 ≤ bc.width / 2 * sx) ∧
        (-bc.height / 2 * sy ≤ 0 ∧ 0 ≤ bc.height / 2 * sy) ∧
          (-bc.depth / 2 * sz ≤ c ∧ c ≤ bc.depth / 2 * sz) := by
  obtain ⟨h00, h11, h22, h01, h02, h12⟩ := hR
  rw [testCollision_eq_true_iff, obbMin_scaleMat, obbMax_scaleMat,
    localPoint_translateMat_add]
  simp only [rotationMat4, Vec3.dot_smul_right, h22, h02, h12, mul_one, mul_zero]

lemma scale_growth_lower {A k : ℚ} (hA : 0 < A) (hk : 1 < k) :
    -A * k ≤ A * (1 + k) / 2 := by nlinarith

lemma scale_growth_upper {A k : ℚ} (hA : 0 < A) (hk : 1 < k) :
    A * (1 + k) / 2 ≤ A * k := by nlinarith

lemma scale_growth_beyond {A k : ℚ} (hA : 0 < A) (hk : 1 < k) :
    A < A * (1 + k) / 2 := by nlinarith

set_option maxHeartbeats 1000000 in
/-- C6: scaling the OBB by `k > 1` strictly grows the collision region:
every point colliding at scale `diag(sx,sy,sz)` still collides at scale
`diag(k*sx, k*sy, k*sz)`, and along each local axis there is a probe point
whose projection is just beyond the unscaled boundary — outside before
scaling — that collides after scaling. -/
theorem testCollision_scale_growth
    (bc : OBB) (t : Vec3) (R : Mat3) (sx sy sz k : ℚ)
    (hR : orthonormal R) (hw : 0 < bc.width) (hh : 0 < bc.height)
    (hd : 0 < bc.depth) (hsx : 0 < sx) (hsy : 0 < sy) (hsz : 0 < sz)
    (hk : 1 < k) :
    (∀ (T Rot : Mat4) (p : Vec3),
        TestCollision bc T Rot (scaleMat ⟨sx, sy, sz⟩) p = true →
          TestCollision bc T Rot (scaleMat ⟨k * sx, k * sy, k * sz⟩) p = true) ∧
      ((∃ c : ℚ, sx * (bc.width / 2) < c ∧
          TestCollision bc (translateMat t) (rotationMat4 R) (scaleMat ⟨sx, sy, sz⟩)
              (t.add (Vec3.smul c R.c0)) = false ∧
            TestCollision bc (translateMat t) (rotationMat4 R)
                (scaleMat ⟨k * sx, k * sy, k * sz⟩) (t.add (Vec3.smul c R.c0)) =
              true) ∧
        (∃ c : ℚ, sy * (bc.height / 2) < c ∧
            TestCollision bc (translateMat t) (rotationMat4 R) (scaleMat ⟨sx, sy, sz⟩)
                (t.add (Vec3.smul c R.c1)) = false ∧
              TestCollision bc (translateMat t) (rotationMat4 R)
                  (scaleMat ⟨k * sx, k * sy, k * sz⟩) (t.add (Vec3.smul c R.c1)) =
                true) ∧
          (∃ c : ℚ, sz * (bc.depth / 2) < c ∧
              TestCollision bc (translateMat t) (rotationMat4 R) (scaleMat ⟨sx, sy, sz⟩)
                  (t.add (Vec3.smul c R.c2)) = false ∧
                TestCollision bc (translateMat t) (rotationMat4 R)
                    (scaleMat ⟨k * sx, k * sy, k * sz⟩) (t.add (Vec3.smul c R.c2)) =
                  true)) := by
  have hk1 : (0 : ℚ) ≤ k - 1 := by linarith
  constructor
  · intro T Rot p hp
    rw [testCollision_eq_true_iff, obbMin_scaleMat, obbMax_scaleMat] at hp
    rw [testCollision_eq_true_iff, obbMin_scaleMat, obbMax_scaleMat]
    simp only at hp ⊢
    obtain ⟨⟨h1, h2⟩, ⟨h3, h4⟩, h5, h6⟩ := hp
    have hax : (0 : ℚ) ≤ bc.width / 2 * sx := by linarith
    have hay : (0 : ℚ) ≤ bc.height / 2 * sy := by linarith
    have haz : (0 : ℚ) ≤ bc.depth / 2 * sz := by linarith
    refine ⟨⟨?_, ?_⟩, ⟨?_, ?_⟩, ?_, ?_⟩ <;>
      nlinarith [mul_nonneg hk1 hax, mul_nonneg hk1 hay, mul_nonneg hk1 haz]
  have hkpos : (0 : ℚ) < k := by linarith
  have hbx : (0 : ℚ) < bc.width / 2 * sx := by positivity
  have hby : (0 : ℚ) < bc.height / 2 * sy := by positivity
  have hbz : (0 : ℚ) < bc.depth / 2 * sz := by positivity
  have hbx' : (0 : ℚ) < sx * (bc.width / 2) := by positivity
  have hby' : (0 : ℚ) < sy * (bc.height / 2) := by positivity
  have hbz' : (0 : ℚ) < sz * (bc.depth / 2) := by positivity
  have hxk := mul_pos hbx hkpos
  have hyk := mul_pos hby hkpos
  have hzk := mul_pos hbz hkpos
  refine ⟨⟨sx * (bc.width / 2) * (1 + k) / 2, ?_, ?_, ?_⟩,
    ⟨sy * (bc.height / 2) * (1 + k) / 2, ?_, ?_, ?_⟩,
    ⟨sz * (bc.depth / 2) * (1 + k) / 2, ?_, ?_, ?_⟩⟩
  · exact scale_growth_beyond hbx' hk
  · rw [Bool.eq_false_iff]
    intro hcol
    rw [testCollision_axisX_point bc t R sx sy sz _ hR] at hcol
    obtain ⟨⟨g1, g2⟩, -, -⟩ := hcol
    linarith [scale_growth_beyond hbx' hk]
  · rw [testCollision_axisX_point bc t R (k * sx) (k * sy) (k * sz) _ hR]
    refine ⟨⟨?_, ?_⟩, ⟨?_, ?_⟩, ?_, ?_⟩
    · linarith [scale_growth_lower hbx' hk]
    · linarith [scale_growth_upper hbx' hk]
    · linarith
    · linarith
    · linarith
    · linarith
  · exact scale_growth_beyond hby' hk
  · rw [Bool.eq_false_iff]
    intro hcol
    rw [testCollision_axisY_point bc t R sx sy sz _ hR] at hcol
    obtain ⟨-, ⟨g1, g2⟩, -⟩ := hcol
    linarith [scale_growth_beyond hby' hk]
  · rw [testCollision_axisY_point bc t R (k * sx) (k * sy) (k * sz) _ hR]
    refine ⟨⟨?_, ?_⟩, ⟨?_, ?_⟩, ?_, ?_⟩
    · linarith
    · linarith
    · linarith [scale_growth_lower hby' hk]
    · linarith [scale_growth_upper hby' hk]
    · linarith
    · linarith
  · exact scale_growth_beyond hbz' hk
  · rw [Bool.eq_false_iff]
    intro hcol
    rw [testCollision_axisZ_point bc t R sx sy sz _ hR] at hcol
    obtain ⟨-, -, g1, g2⟩ := hcol
    linarith [scale_growth_beyond hbz' hk]
  · rw [testCollision_axisZ_point bc t R (k * sx) (k * sy) (k * sz) _ hR]
    refine ⟨⟨?_, ?_⟩, ⟨?_, ?_⟩, ?_, ?_⟩
    · linarith
    · linarith
    · linarith
    · linarith
    · linarith [scale_growth_lower hbz' hk]
    · linarith [scale_growth_upper hbz' hk]

/-- Witness for C6: doubling the unit scale keeps the boundary point
`(1,0,0)` of the unit cube colliding. -/
theorem testCollision_scale_growth_witness :
    TestCollision ⟨2, 2, 2⟩ Mat4.id Mat4.id (scaleMat ⟨2 * 1, 2 * 1, 2 * 1⟩)
      ⟨1, 0, 0⟩ = true :=
  (testCollision_scale_growth ⟨2, 2, 2⟩ Vec3.zero Mat3.id 1 1 1 2 orthonormal_id
        (by norm_num) (by norm_num) (by norm_num) (by norm_num) (by norm_num)
        (by norm_num) (by norm_num)).1 Mat4.id Mat4.id ⟨1, 0, 0⟩
    (by norm_num [TestCollision, scaleMat, Mat4.id, Mat3.id, Mat4.applyPoint,
      Mat3.mulVec, Vec3.add, Vec3.neg, Vec3.smul, Vec3.dot, Vec3.zero])

/-- C7 counterexample: with half-extents `(0.05, 0.05, 0.05)` (an
`OBB(0.1, 0.1, 0.1)`), identity rotation and scale, the box at
`(0.15, 0, 0)` and the point at `(0, 0, 0)`, `TestCollision` returns
`false` — the point sits `0.15` from the box center, beyond the `0.05`
half-extent, contrary to the claimed `true`. -/
theorem endToEnd_scenario_counterexample :
    TestCollision ⟨1 / 10, 1 / 10, 1 / 10⟩ (translateMat ⟨3 / 20, 0, 0⟩) Mat4.id
      Mat4.id ⟨0, 0, 0⟩ = false := by
  norm_num [TestCollision, translateMat, Mat4.id, Mat3.id, Mat4.applyPoint,
    Mat3.mulVec, Vec3.add, Vec3.neg, Vec3.smul, Vec3.dot, Vec3.zero]

/-- C7 amended: for the `OBB(0.1, 0.1, 0.1)` box (half-extents `0.05`) with
identity rotation and scale: box at the origin and point at the origin
collide; the point at `(0.2, 0, 0)` does not; with the box at `(0.15,0,0)`
the point at `(0,0,0)` does NOT collide (it is `0.15` from the center);
moving the point to the box center `(0.15,0,0)` does collide. -/
theorem endToEnd_scenario_amended :
    TestCollision ⟨1 / 10, 1 / 10, 1 / 10⟩ (translateMat ⟨0, 0, 0⟩) Mat4.id Mat4.id
        ⟨0, 0, 0⟩ = true ∧
      TestCollision ⟨1 / 10, 1 / 10, 1 / 10⟩ (translateMat ⟨0, 0, 0⟩) Mat4.id Mat4.id
          ⟨1 / 5, 0, 0⟩ = false ∧
        TestCollision ⟨1 / 10, 1 / 10, 1 / 10⟩ (translateMat ⟨3 / 20, 0, 0⟩) Mat4.id
            Mat4.id ⟨0, 0, 0⟩ = false ∧
          TestCollision ⟨1 / 10, 1 / 10, 1 / 10⟩ (translateMat ⟨3 / 20, 0, 0⟩) Mat4.id
              Mat4.id ⟨3 / 20, 0, 0⟩ = true := by
  refine ⟨?_, ?_, ?_, ?_⟩ <;>
    norm_num [TestCollision, translateMat, Mat4.id, Mat3.id, Mat4.applyPoint,
      Mat3.mulVec, Vec3.add, Vec3.neg, Vec3.smul, Vec3.dot, Vec3.zero]

/-- C8: the selection state machine: the selected shape is always one of
{box, point}; it starts as the box; the spacebar event toggles it, toggling
twice restores it; and no other event changes it. -/
theorem selection_state_machine :
    initState.selected = Selection.box ∧
      (∀ s : ProgState,
          (step (Event.keyDown Key.space) s).selected = toggleSel s.selected) ∧
        (∀ sel : Selection, toggleSel (toggleSel sel) = sel) ∧
          (∀ (e : Event) (s : ProgState), e ≠ Event.keyDown Key.space →
              (step e s).selected = s.selected) ∧
            (∀ es : List Event,
                (run es).selected = Selection.box ∨
                  (run es).selected = Selection.point) := by
  refine ⟨rfl, ?_, ?_, ?_, ?_⟩
  · intro s
    simp [step, keyDownStep, moveVec]
  · intro sel
    cases sel <;> rfl
  · intro e s he
    cases e with
    | keyDown k =>
        cases k <;>
          simp_all [step, keyDownStep, moveVec, setSelected_selected]
    | keyUp k => rfl
    | mouseButton b => rfl
    | updateTick cy sy cx sx =>
        simp only [step, updateTickStep]
        split_ifs <;> simp [setSelected_selected]
  · intro es
    cases h : (run es).selected
    · exact Or.inl rfl
    · exact Or.inr rfl

/-- Witness for C8: a W-key event does not change the selection. -/
theorem selection_state_machine_witness :
    (step (Event.keyDown Key.w) initState).selected = initState.selected :=
  selection_state_machine.2.2.2.1 (Event.keyDown Key.w) initState (by decide)

/-! ## Rotation orthonormality invariant -/

lemma getSelected_setHue (s : ProgState) (r : ℚ) :
    ProgState.getSelected { s with hueRed := r } = s.getSelected := by
  cases h : s.selected <;> simp [ProgState.getSelected, h]

/-- Both meshes' rotation matrices have orthonormal linear parts. -/
def rotOk (s : ProgState) : Prop :=
  orthonormal s.box.rotation.linear ∧ orthonormal s.point.rotation.linear

lemma keyDownStep_box_rotation (k : Key) (s : ProgState) :
    (keyDownStep k s).box.rotation = s.box.rotation := by
  cases k <;> cases hsel : s.selected <;>
    simp [keyDownStep, moveVec, ProgState.setSelected, ProgState.getSelected, hsel]

lemma keyDownStep_point_rotation (k : Key) (s : ProgState) :
    (keyDownStep k s).point.rotation = s.point.rotation := by
  cases k <;> cases hsel : s.selected <;>
    simp [keyDownStep, moveVec, ProgState.setSelected, ProgState.getSelected, hsel]

lemma rotOk_updateTick (cy sy cx sx : ℚ) (s : ProgState)
    (hy : cy * cy + sy * sy = 1) (hx : cx * cx + sx * sx = 1) (hs : rotOk s) :
    rotOk (updateTickStep cy sy cx sx s) := by
  have hyaw := orthonormal_yawMat hy
  have hpitch := orthonormal_pitchMat hx
  obtain ⟨hb, hp⟩ := hs
  cases hm : s.isMousePressed
  · constructor <;> simp only [updateTickStep, hm] <;> simp <;> assumption
  · cases hsel : s.selected
    · constructor
      · simp only [updateTickStep, hm, if_true]
        simp [ProgState.setSelected, ProgState.getSelected, hsel, Mat4.mul,
          rotationMat4]
        exact orthonormal_mul hyaw (orthonormal_mul hpitch hb)
      · simp only [updateTickStep, hm, if_true]
        simp [ProgState.setSelected, ProgState.getSelected, hsel]
        exact hp
    · constructor
      · simp only [updateTickStep, hm, if_true]
        simp [ProgState.setSelected, ProgState.getSelected, hsel]
        exact hb
      · simp only [updateTickStep, hm, if_true]
        simp [ProgState.setSelected, ProgState.getSelected, hsel, Mat4.mul,
          rotationMat4]
        exact orthonormal_mul hyaw (orthonormal_mul hpitch hp)

lemma rotOk_step (e : Event) (s : ProgState) (he : e.unitParams) (hs : rotOk s) :
    rotOk (step e s) := by
  cases e with
  | keyDown k =>
      show rotOk (keyDownStep k s)
      constructor
      · rw [keyDownStep_box_rotation]
        exact hs.1
      · rw [keyDownStep_point_rotation]
        exact hs.2
  | keyUp k => exact hs
  | mouseButton b => exact hs
  | updateTick cy sy cx sx =>
      simp only [Event.unitParams] at he
      exact rotOk_updateTick cy sy cx sx s he.1 he.2 hs

lemma rotOk_foldl (es : List Event) :
    ∀ s : ProgState, rotOk s → (∀ e ∈ es, e.unitParams) →
      rotOk (es.foldl (fun a e => step e a) s) := by
  induction es with
  | nil => intro s hs _; exact hs
  | cons e es ih =>
      intro s hs hall
      simp only [List.foldl_cons]
      exact ih _ (rotOk_step e s (hall e (by simp)) hs)
        (fun e2 he2 => hall e2 (by simp [he2]))

lemma rotOk_initState : rotOk initState :=
  ⟨orthonormal_id, orthonormal_id⟩

/-- C9: every mouse-pressed update replaces the selected rotation `R` by
`yaw * pitch * R` (`yaw`, `pitch` the glm world-Y and world-X rotations),
and — in exact arithmetic, i.e. with each drag's cosine/sine pair on the
unit circle — the rotation matrices of both shapes stay orthonormal along
every event sequence from the initial (identity-rotation) state. -/
theorem rotation_update_composes_and_preserves_orthonormality :
    (∀ (cy sy cx sx : ℚ) (s : ProgState), s.isMousePressed = true →
        ((step (Event.updateTick cy sy cx sx) s).getSelected).rotation =
          Mat4.mul (rotationMat4 (yawMat cy sy))
            (Mat4.mul (rotationMat4 (pitchMat cx sx)) (s.getSelected).rotation)) ∧
      ∀ es : List Event, (∀ e ∈ es, e.unitParams) →
        orthonormal ((run es).box.rotation.linear) ∧
          orthonormal ((run es).point.rotation.linear) := by
  constructor
  · intro cy sy cx sx s hm
    show ((updateTickStep cy sy cx sx s).getSelected).rotation = _
    simp only [updateTickStep, hm, if_true, getSelected_setHue,
      getSelected_setSelected]
  · intro es hall
    exact rotOk_foldl es initState rotOk_initState hall

/-- Witness for C9: after pressing the mouse and dragging with the
3-4-5 yaw angle and a zero pitch angle, the box rotation is orthonormal. -/
theorem rotation_update_composes_and_preserves_orthonormality_witness :
    orthonormal
      ((run [Event.mouseButton true,
          Event.updateTick (3 / 5) (4 / 5) 1 0]).box.rotation.linear) :=
  (rotation_update_composes_and_preserves_orthonormality.2
      [Event.mouseButton true, Event.updateTick (3 / 5) (4 / 5) 1 0]
      (by
        intro e he
        simp only [List.mem_cons, List.not_mem_nil, or_false] at he
        rcases he with rfl | rfl
        · trivial
        · exact ⟨by norm_num, by norm_num⟩)).1
